import Mathlib

/-! ai-todo: the browser client `static/js/app.js`

A shallow embedding of the to-do list front end.  The page state the script
touches (the two input fields, the list container, the loading indicator, the
error slot, pending timers) is an explicit record, extended with a log of the
`fetch` calls issued and of the `console.error` calls made.

Every `async` function of the script suspends once, at `await fetch(...)`
followed by `await response.json()`; nothing of the function runs between the
two awaits, so each function is embedded as two state transformers:

* `f`         the synchronous first part, run when `f(...)` is called, up to the
              point where the request has been issued and the call returns;
* `f_resume`  the rest of the body, run on the state of the page at the time
              the response (an `Outcome`) arrives.

A call `loadTodos()` that is not awaited (as in `addTodo`, `toggleTodo` and
`deleteTodo`) runs the first part `loadTodos` in place and leaves its continuation
pending.
-/

namespace TodoApp

/-! ## Data model -/

/-- A task as the server sends it. `id` is the integer written in the JSON
text; `JSON.parse` turns it into a Number (a double) and the template literals
of the script print that Number, see `numberToString`. `description` is `none`
when the field is absent or `null`. -/
structure Task where
  id : Int
  title : String
  description : Option String
  completed : Bool
  deriving DecidableEq, Repr

/-- The parsed JSON body of a response: `success` is the truthiness of
`result.success`; `data` and `error` are `none` when the field is absent or
`null`. -/
structure Envelope where
  success : Bool
  data : Option (List Task)
  error : Option String
  deriving DecidableEq, Repr

/-- What an `await fetch(...)` / `await response.json()` pair can produce. -/
inductive Outcome where
  /-- The call `fetch(...)` rejects (network unreachable). -/
  | networkError
  /-- The call `response.json()` rejects (the body is not JSON). -/
  | badBody
  /-- The body is the JSON value `null`: reading `result.success` throws. -/
  | nullBody
  /-- The body parses to an envelope. -/
  | envelope (result : Envelope)
  deriving DecidableEq, Repr

/-- The value handed to the `catch` clause. -/
inductive JsError where
  | fetchRejected
  | jsonRejected
  | typeError
  deriving DecidableEq, Repr

/-- The argument of `JSON.stringify` in the request body. -/
inductive Body where
  /-- The object `{title: title, description: description || null}`. -/
  | create (title : String) (description : Option String)
  /-- The object `{completed: completed}`. -/
  | update (completed : Bool)
  deriving DecidableEq, Repr

/-- One call of `fetch`. -/
structure Request where
  method : String
  url : String
  headers : List (String × String)
  body : Option Body
  deriving DecidableEq, Repr

/-- The arrow functions registered with `addEventListener` on a row. -/
inductive Handler where
  /-- The listener `() => toggleTodo(todo.id, checkbox.checked)`. -/
  | toggleTodo (todoId : Int)
  /-- The listener `() => deleteTodo(todo.id)`. -/
  | deleteTodo (todoId : Int)
  deriving DecidableEq, Repr

/-- The properties of a DOM element the script sets. -/
structure Props where
  tag : String
  className : String := ""
  id : String := ""
  inputType : String := ""
  checked : Bool := false
  textContent : String := ""
  listeners : List (String × Handler) := []
  deriving DecidableEq, Repr

/-- A DOM element with its child elements. -/
inductive Element where
  | node (props : Props) (children : List Element)
  deriving Repr

/-- The properties of an element. -/
def Element.props : Element → Props
  | .node p _ => p

/-- The child elements of an element. -/
def Element.children : Element → List Element
  | .node _ cs => cs

/-- Result of `parent.appendChild(child)`. -/
def Element.appendChild (parent child : Element) : Element :=
  match parent with
  | .node p cs => .node p (cs ++ [child])

/-- The page as the script sees it. -/
structure State where
  /-- Value of `todoTitle.value`. -/
  todoTitle : String
  /-- Value of `todoDescription.value`. -/
  todoDescription : String
  /-- The child elements of `todosList`. -/
  todosList : List Element
  /-- Value of `loading.style.display`. -/
  loadingDisplay : String
  /-- Value of `error.style.display`. -/
  errorDisplay : String
  /-- Value of `error.textContent`. -/
  errorText : String
  /-- Delays of the `setTimeout` callbacks scheduled and not yet run; every
  callback of the script is `() => { error.style.display = 'none' }`. -/
  timers : List Nat
  /-- The `fetch` calls issued so far, oldest first. -/
  requests : List Request
  /-- The arguments of the `console.error` calls so far, oldest first. -/
  console : List JsError

/-! ## Strings -/

/-- The code points `String.prototype.trim` strips: ECMAScript WhiteSpace and
LineTerminator. -/
def isJsWhiteSpace (c : Char) : Bool :=
  let n := c.toNat
  n = 0x09 || n = 0x0A || n = 0x0B || n = 0x0C || n = 0x0D || n = 0x20 ||
  n = 0xA0 || n = 0x1680 || (0x2000 ≤ n && n ≤ 0x200A) || n = 0x2028 ||
  n = 0x2029 || n = 0x202F || n = 0x205F || n = 0x3000 || n = 0xFEFF

/-- Value of `s.trim()`. -/
def jsTrim (s : String) : String :=
  ⟨((s.data.dropWhile isJsWhiteSpace).reverse.dropWhile isJsWhiteSpace).reverse⟩

/-- Value of `s || fallback` for a string `s`: the empty string is falsy. -/
def strOr (s fallback : String) : String :=
  if s = "" then fallback else s

/-- Value of `description || null` for a string `description`. -/
def strOrNull (s : String) : Option String :=
  if s = "" then none else some s

/-- Value of `x || fallback` for an optional string field `x`: absent, `null` and the
empty string are falsy. -/
def optStrOr (x : Option String) (fallback : String) : String :=
  match x with
  | none => fallback
  | some s => strOr s fallback

/-! ## Numbers

The script prints task ids with template literals (lines 62, 148 and 177),
that is with `Number::toString` on the double the id was parsed to. For an
integer this needs the rounding of an integer to a double and the shortest
decimal that rounds back to it. An id is carried as the integer of the JSON
text; `numberToString` rounds it as `JSON.parse` did before it prints it, so
the `todoId` a listener hands to `toggleTodo` or `deleteTodo` prints exactly
as `todo.id` does. -/

/-- The position of the highest set bit of `n` (0 for `n < 2`); `fuel` bounds
the number of halvings. -/
def log2Fuel : Nat → Nat → Nat
  | 0, _ => 0
  | fuel + 1, n => if 2 ≤ n then log2Fuel fuel (n / 2) + 1 else 0

/-- The number of decimal digits of `n` (1 for `n < 10`); `fuel` bounds the
number of divisions. -/
def digitsFuel : Nat → Nat → Nat
  | 0, _ => 1
  | fuel + 1, n => if 10 ≤ n then digitsFuel fuel (n / 10) + 1 else 1

/-- The number of decimal digits of `n`. -/
def numDigits (n : Nat) : Nat := digitsFuel n n

/-- The Number value of a non-negative integer `a`: `a` itself below `2^53`,
otherwise `a` rounded to 53 significant bits, ties to the even significand;
`none` stands for `Infinity` (the result would need a binary exponent of 1024
or more). -/
def roundToDouble (a : Nat) : Option Nat :=
  if a < 2 ^ 53 then
    some a
  else
    let e := log2Fuel a a - 52
    let q := a / 2 ^ e
    let r := a % 2 ^ e
    let half := 2 ^ (e - 1)
    let q := if half < r ∨ (r = half ∧ q % 2 = 1) then q + 1 else q
    if 1024 ≤ log2Fuel (q * 2 ^ e) (q * 2 ^ e) then none else some (q * 2 ^ e)

/-- The digits `s` and the power `m` of a decimal `s × 10^m` with at most `k`
digits whose Number value is `x`, if there is one; of two, the one closer to
`x`, and the one with the even `s` when they are as close. -/
def digitCandidate (x k : Nat) : Option (Nat × Nat) :=
  let m := numDigits x - k
  let lo := x / 10 ^ m
  let hi := lo + 1
  let okLo : Bool := roundToDouble (lo * 10 ^ m) = some x
  let okHi : Bool := roundToDouble (hi * 10 ^ m) = some x
  let up : Nat × Nat := if hi = 10 ^ k then (1, m + k) else (hi, m)
  if okLo && okHi then
    if x - lo * 10 ^ m < hi * 10 ^ m - x then some (lo, m)
    else if hi * 10 ^ m - x < x - lo * 10 ^ m then some up
    else if lo % 2 = 0 then some (lo, m) else some up
  else if okLo then some (lo, m)
  else if okHi then some up
  else none

/-- The shortest decimal `s × 10^m` whose Number value is the double `x`:
17 digits always suffice. -/
def shortestDecimal (x : Nat) : Nat × Nat :=
  ((List.range' 1 (min 17 (numDigits x))).findSome? (digitCandidate x)).getD (x, 0)

/-- Value of `Number::toString` on the Number value of the positive integer
`a`: the shortest decimal `s × 10^m` that rounds to it, written out in full
below `10^21` and as `d.ddde+n` from there on. -/
def positiveToString (a : Nat) : String :=
  match roundToDouble a with
  | none => "Infinity"
  | some x =>
    let y := (shortestDecimal x).1 * 10 ^ (shortestDecimal x).2
    let digits := (toString (shortestDecimal x).1).data
    if y < 10 ^ 21 then
      toString y
    else if digits.length = 1 then
      String.mk digits ++ "e+" ++ toString (numDigits y - 1)
    else
      String.mk (digits.take 1) ++ "." ++ String.mk (digits.drop 1)
        ++ "e+" ++ toString (numDigits y - 1)

/-- Value of the template literal `${id}` for the id written `v` in the JSON
text. -/
def numberToString (v : Int) : String :=
  match v with
  | Int.ofNat 0 => "0"
  | Int.ofNat (a + 1) => positiveToString (a + 1)
  | Int.negSucc a => "-" ++ positiveToString (a + 1)

/-! ## The script -/

/-- Lines 194-200. -/
def showError (message : String) (s : State) : State :=
  { s with
    errorText := message
    errorDisplay := "block"
    timers := s.timers ++ [5000] }

/-- The callback `showError` schedules (lines 197-199), when it runs. -/
def hideErrorTimer (s : State) : State :=
  { s with errorDisplay := "none", timers := s.timers.tail }

/-- Lines 59-103. -/
def createTodoElement (todo : Task) : Element :=
  let div : Element := .node
    { tag := "div"
      className := "todo-item " ++ (if todo.completed then "completed" else "")
      id := "todo-" ++ numberToString todo.id } []
  let checkbox : Element := .node
    { tag := "input"
      inputType := "checkbox"
      className := "checkbox"
      checked := todo.completed
      listeners := [("change", Handler.toggleTodo todo.id)] } []
  let content : Element := .node { tag := "div", className := "todo-content" } []
  let title : Element := .node
    { tag := "div", className := "todo-title", textContent := todo.title } []
  let description : Element := .node
    { tag := "div"
      className := "todo-description"
      textContent := optStrOr todo.description "" } []
  let content :=
    if description.props.textContent ≠ "" then
      (content.appendChild title).appendChild description
    else
      content.appendChild title
  let actions : Element := .node { tag := "div", className := "todo-actions" } []
  let deleteBtn : Element := .node
    { tag := "button"
      className := "btn-small btn-delete"
      textContent := "Supprimer"
      listeners := [("click", Handler.deleteTodo todo.id)] } []
  let actions := actions.appendChild deleteBtn
  let div := div.appendChild checkbox
  let div := div.appendChild content
  let div := div.appendChild actions
  div

/-- The element `todosList.innerHTML = '<div class="empty-state">...</div>'`
parses to (line 49). -/
def emptyState : Element := .node
  { tag := "div"
    className := "empty-state"
    textContent := "Aucune tâche pour le moment. Ajoutez-en une ! 🎉" } []

/-- Lines 45-57. The argument is `result.data`, `none` when the envelope has
no such field; reading `todos.length` then throws, after line 46 has run. -/
def displayTodos (todos : Option (List Task)) (s : State) : State × Option JsError :=
  let s := { s with todosList := [] }
  match todos with
  | none => (s, some JsError.typeError)
  | some todos =>
    if todos.length = 0 then
      ({ s with todosList := [emptyState] }, none)
    else
      (todos.foldl
        (fun s todo => { s with todosList := s.todosList ++ [createTodoElement todo] }) s,
       none)

/-- The request of `fetch('/api/todos')`. -/
def listRequest : Request :=
  { method := "GET", url := "/api/todos", headers := [], body := none }

/-- Lines 23-28: `loadTodos()` up to its suspension. -/
def loadTodos (s : State) : State :=
  let s := { s with loadingDisplay := "block" }
  let s := { s with errorDisplay := "none" }
  { s with requests := s.requests ++ [listRequest] }

/-- Lines 38-42. -/
def loadTodos_catch (err : JsError) (s : State) : State :=
  let s := { s with loadingDisplay := "none" }
  let s := showError "Erreur de connexion au serveur" s
  { s with console := s.console ++ [err] }

/-- Lines 29-43: the rest of `loadTodos` once the response is there. -/
def loadTodos_resume (o : Outcome) (s : State) : State :=
  match o with
  | .networkError => loadTodos_catch .fetchRejected s
  | .badBody => loadTodos_catch .jsonRejected s
  | .nullBody =>
    let s := { s with loadingDisplay := "none" }
    loadTodos_catch .typeError s
  | .envelope result =>
    let s := { s with loadingDisplay := "none" }
    if result.success then
      match displayTodos result.data s with
      | (s, none) => s
      | (s, some err) => loadTodos_catch err s
    else
      showError "Erreur lors du chargement des tâches" s

/-- The request of line 118: `fetch('/api/todos', {method: 'POST', ...})`. -/
def createRequest (title : String) (description : Option String) : Request :=
  { method := "POST"
    url := "/api/todos"
    headers := [("Content-Type", "application/json")]
    body := some (Body.create title description) }

/-- Lines 105-127: `addTodo()` up to its suspension, or to the early `return`
of line 111. -/
def addTodo (s : State) : State :=
  let title := jsTrim s.todoTitle
  let description := jsTrim s.todoDescription
  if title = "" then
    showError "Veuillez entrer un titre pour la tâche" s
  else
    let s := { s with loadingDisplay := "block" }
    let s := { s with errorDisplay := "none" }
    { s with requests := s.requests ++ [createRequest title (strOrNull description)] }

/-- Lines 139-143. -/
def addTodo_catch (err : JsError) (s : State) : State :=
  let s := { s with loadingDisplay := "none" }
  let s := showError "Erreur de connexion au serveur" s
  { s with console := s.console ++ [err] }

/-- Lines 129-144: the rest of `addTodo` once the response is there. -/
def addTodo_resume (o : Outcome) (s : State) : State :=
  match o with
  | .networkError => addTodo_catch .fetchRejected s
  | .badBody => addTodo_catch .jsonRejected s
  | .nullBody =>
    let s := { s with loadingDisplay := "none" }
    addTodo_catch .typeError s
  | .envelope result =>
    let s := { s with loadingDisplay := "none" }
    if result.success then
      let s := { s with todoTitle := "" }
      let s := { s with todoDescription := "" }
      loadTodos s
    else
      showError (optStrOr result.error "Erreur lors de l'ajout de la tâche") s

/-- The request of line 148: a `PUT` on the task's URL. -/
def updateRequest (todoId : Int) (completed : Bool) : Request :=
  { method := "PUT"
    url := "/api/todos/" ++ numberToString todoId
    headers := [("Content-Type", "application/json")]
    body := some (Body.update completed) }

/-- Lines 146-156: `toggleTodo(todoId, completed)` up to its suspension. -/
def toggleTodo (todoId : Int) (completed : Bool) (s : State) : State :=
  { s with requests := s.requests ++ [updateRequest todoId completed] }

/-- Lines 164-168. -/
def toggleTodo_catch (err : JsError) (s : State) : State :=
  let s := showError "Erreur de connexion au serveur" s
  let s := { s with console := s.console ++ [err] }
  loadTodos s

/-- Lines 158-169: the rest of `toggleTodo` once the response is there. -/
def toggleTodo_resume (o : Outcome) (s : State) : State :=
  match o with
  | .networkError => toggleTodo_catch .fetchRejected s
  | .badBody => toggleTodo_catch .jsonRejected s
  | .nullBody => toggleTodo_catch .typeError s
  | .envelope result =>
    if !result.success then
      let s := showError "Erreur lors de la mise à jour de la tâche" s
      loadTodos s
    else
      s

/-- The request of line 177: a `DELETE` on the task's URL. -/
def deleteRequest (todoId : Int) : Request :=
  { method := "DELETE"
    url := "/api/todos/" ++ numberToString todoId
    headers := []
    body := none }

/-- Lines 171-179: `deleteTodo(todoId)` up to its suspension, or to the early
`return` of line 173; `confirmed` is what `confirm(...)` returns. -/
def deleteTodo (todoId : Int) (confirmed : Bool) (s : State) : State :=
  if !confirmed then
    s
  else
    { s with requests := s.requests ++ [deleteRequest todoId] }

/-- Lines 188-191. -/
def deleteTodo_catch (err : JsError) (s : State) : State :=
  let s := showError "Erreur de connexion au serveur" s
  { s with console := s.console ++ [err] }

/-- Lines 181-192: the rest of `deleteTodo` once the response is there. -/
def deleteTodo_resume (o : Outcome) (s : State) : State :=
  match o with
  | .networkError => deleteTodo_catch .fetchRejected s
  | .badBody => deleteTodo_catch .jsonRejected s
  | .nullBody => deleteTodo_catch .typeError s
  | .envelope result =>
    if result.success then
      loadTodos s
    else
      showError "Erreur lors de la suppression de la tâche" s

/-! ## Reading the page -/

/-- The tokens of a `class` attribute, split at ASCII white space; `cur` is the
token being read, reversed. -/
def classTokens : List Char → List Char → List String
  | [], cur => if cur = [] then [] else [String.mk cur.reverse]
  | c :: cs, cur =>
    if c = ' ' ∨ c = '\t' ∨ c = '\n' ∨ c = '\x0c' ∨ c = '\r' then
      if cur = [] then classTokens cs [] else String.mk cur.reverse :: classTokens cs []
    else
      classTokens cs (c :: cur)

/-- Value of `element.classList.contains(cls)`. -/
def Element.hasClass (e : Element) (cls : String) : Bool :=
  (classTokens e.props.className.data []).contains cls

/-- A row of the list: an element of class `todo-item`. -/
def isRow (e : Element) : Bool := e.hasClass "todo-item"

/-- The placeholder of the empty list: an element of class `empty-state`. -/
def isEmptyState (e : Element) : Bool := e.hasClass "empty-state"

/-- A page to evaluate the script on: one stale row, an earlier error still
showing, one request already logged. -/
def samplePage : State :=
  { todoTitle := "  Buy milk "
    todoDescription := " "
    todosList :=
      [createTodoElement { id := 7, title := "old", description := none, completed := true }]
    loadingDisplay := "none"
    errorDisplay := "block"
    errorText := "earlier"
    timers := [5000]
    requests := [listRequest]
    console := [] }


mutual
/-- The elements below an element, in document order. -/
def Element.descendants : Element → List Element
  | .node _ cs => descendantsOfList cs
/-- The elements of a list of siblings and the elements below them, in
document order. -/
def descendantsOfList : List Element → List Element
  | [] => []
  | c :: cs => c :: (c.descendants ++ descendantsOfList cs)
end

/-- A success envelope: a parsed body whose `success` is truthy. Every other
outcome is a failure envelope or a transport failure. -/
def Outcome.isSuccess : Outcome → Bool
  | .envelope result => result.success
  | _ => false

/-! ## Strings: lemmas -/

theorem jsTrim_eq_empty_of_blank (t : String)
    (h : ∀ c ∈ t.data, isJsWhiteSpace c = true) : jsTrim t = "" := by
  have h1 : t.data.dropWhile isJsWhiteSpace = [] := List.dropWhile_eq_nil_iff.mpr h
  simp only [jsTrim, h1]
  rfl

theorem blank_of_jsTrim_eq_empty (t : String) (h : jsTrim t = "") :
    ∀ c ∈ t.data, isJsWhiteSpace c = true := by
  have h0 : (jsTrim t).data = [] := by rw [h]
  simp only [jsTrim, List.reverse_eq_nil_iff] at h0
  have h1 : ∀ c ∈ (t.data.dropWhile isJsWhiteSpace).reverse, isJsWhiteSpace c = true :=
    List.dropWhile_eq_nil_iff.mp h0
  have h2 : t.data.dropWhile isJsWhiteSpace = [] := by
    cases hd : t.data.dropWhile isJsWhiteSpace with
    | nil => rfl
    | cons a l =>
      have ha : isJsWhiteSpace a = true := by
        apply h1
        simp [hd]
      have hn := List.head_dropWhile_not isJsWhiteSpace t.data (by simp [hd])
      simp [hd, ha] at hn
  exact List.dropWhile_eq_nil_iff.mp h2

/-! ## Numbers: lemmas -/

theorem pow_log2Fuel_le (fuel n : Nat) (h : 1 ≤ n) : 2 ^ log2Fuel fuel n ≤ n := by
  induction fuel generalizing n with
  | zero => simpa [log2Fuel] using h
  | succ f ih =>
    unfold log2Fuel
    split
    · have h2 : 1 ≤ n / 2 := by omega
      have := ih (n / 2) h2
      rw [pow_succ]
      omega
    · simpa using h

theorem lt_pow_log2Fuel (fuel n : Nat) (h : n ≤ fuel) : n < 2 ^ (log2Fuel fuel n + 1) := by
  induction fuel generalizing n with
  | zero =>
    have : n = 0 := by omega
    subst this
    simp [log2Fuel]
  | succ f ih =>
    unfold log2Fuel
    split
    · have h2 : n / 2 ≤ f := by omega
      have := ih (n / 2) h2
      rw [pow_succ]
      omega
    · simp only [zero_add, pow_one]
      omega

/-- An integer from `2^53` on rounds to a double from `2^53` on. -/
theorem le_of_roundToDouble (y z : Nat) (hy : 2 ^ 53 ≤ y) (h : roundToDouble y = some z) :
    2 ^ 53 ≤ z := by
  have hpos : 1 ≤ y := le_trans (by norm_num) hy
  have h1 : 2 ^ log2Fuel y y ≤ y := pow_log2Fuel_le y y hpos
  have h2 : y < 2 ^ (log2Fuel y y + 1) := lt_pow_log2Fuel y y le_rfl
  have hL : 53 ≤ log2Fuel y y := by
    by_contra hc
    have hle : log2Fuel y y + 1 ≤ 53 := by omega
    have : 2 ^ (log2Fuel y y + 1) ≤ 2 ^ 53 := Nat.pow_le_pow_right (by norm_num) hle
    omega
  have hsplit : 2 ^ log2Fuel y y = 2 ^ 52 * 2 ^ (log2Fuel y y - 52) := by
    rw [← pow_add]
    congr 1
    omega
  have hq : 2 ^ 52 ≤ y / 2 ^ (log2Fuel y y - 52) := by
    rw [Nat.le_div_iff_mul_le (by positivity)]
    rw [← hsplit]
    exact h1
  have h53 : (2 : Nat) ^ 53 ≤ 2 ^ log2Fuel y y := Nat.pow_le_pow_right (by norm_num) hL
  have key : ∀ q : Nat, y / 2 ^ (log2Fuel y y - 52) ≤ q →
      (if 1024 ≤ log2Fuel (q * 2 ^ (log2Fuel y y - 52)) (q * 2 ^ (log2Fuel y y - 52))
        then none else some (q * 2 ^ (log2Fuel y y - 52))) = some z → 2 ^ 53 ≤ z := by
    intro q hle hz
    split at hz
    · exact absurd hz (by simp)
    · injection hz with hz
      rw [← hz]
      calc 2 ^ 53 ≤ 2 ^ log2Fuel y y := h53
        _ = 2 ^ 52 * 2 ^ (log2Fuel y y - 52) := hsplit
        _ ≤ y / 2 ^ (log2Fuel y y - 52) * 2 ^ (log2Fuel y y - 52) :=
            Nat.mul_le_mul_right _ hq
        _ ≤ q * 2 ^ (log2Fuel y y - 52) := Nat.mul_le_mul_right _ hle
  unfold roundToDouble at h
  rw [if_neg (by omega)] at h
  exact key _ (by split <;> omega) h

/-- Only `a` itself rounds to an integer `a` below `2^53`. -/
theorem eq_of_roundToDouble (y a : Nat) (ha : a < 2 ^ 53) (h : roundToDouble y = some a) :
    y = a := by
  by_cases hy : y < 2 ^ 53
  · unfold roundToDouble at h
    rw [if_pos hy] at h
    injection h
  · have := le_of_roundToDouble y a (by omega) h
    omega

/-- A decimal `digitCandidate` returns rounds to `x`. -/
theorem digitCandidate_sound (x k s m : Nat) (h : digitCandidate x k = some (s, m)) :
    roundToDouble (s * 10 ^ m) = some x := by
  unfold digitCandidate at h
  simp only at h
  have hup : ∀ hi m', roundToDouble (hi * 10 ^ m') = some x →
      (if hi = 10 ^ k then ((1 : Nat), m' + k) else (hi, m')) = (s, m) →
      roundToDouble (s * 10 ^ m) = some x := by
    intro hi m' hr he
    split at he
    · next hk =>
      injection he with h1 h2
      subst h1 h2
      rw [one_mul, pow_add, mul_comm, ← hk]
      exact hr
    · injection he with h1 h2
      subst h1 h2
      exact hr
  split at h
  · next hb =>
    simp only [Bool.and_eq_true, decide_eq_true_eq] at hb
    split at h
    · injection h with h; injection h with h1 h2; subst h1 h2; exact hb.1
    · split at h
      · injection h with h; exact hup _ _ hb.2 h
      · split at h
        · injection h with h; injection h with h1 h2; subst h1 h2; exact hb.1
        · injection h with h; exact hup _ _ hb.2 h
  · split at h
    · next hb =>
      simp only [decide_eq_true_eq] at hb
      injection h with h; injection h with h1 h2; subst h1 h2; exact hb
    · split at h
      · next hb =>
        simp only [decide_eq_true_eq] at hb
        injection h with h; exact hup _ _ hb h
      · exact absurd h (by simp)

/-- The decimal `shortestDecimal` returns for a double rounds to it. -/
theorem shortestDecimal_sound (x : Nat) (hx : roundToDouble x = some x) :
    roundToDouble ((shortestDecimal x).1 * 10 ^ (shortestDecimal x).2) = some x := by
  unfold shortestDecimal
  cases hf : (List.range' 1 (min 17 (numDigits x))).findSome? (digitCandidate x) with
  | none => simpa using hx
  | some p =>
    obtain ⟨k, _, hk⟩ := List.exists_of_findSome?_eq_some hf
    obtain ⟨s, m⟩ := p
    exact digitCandidate_sound x k s m hk

/-- Below `2^53` a positive integer prints as its decimal numeral. -/
theorem positiveToString_of_lt (a : Nat) (ha : a < 2 ^ 53) :
    positiveToString a = toString a := by
  have hr : roundToDouble a = some a := by
    unfold roundToDouble
    rw [if_pos ha]
  have hy := eq_of_roundToDouble _ a ha (shortestDecimal_sound a hr)
  unfold positiveToString
  rw [hr]
  simp only [hy]
  rw [if_pos (lt_trans ha (by norm_num))]

/-- An id that is a safe integer (`Number.MAX_SAFE_INTEGER` is
`9007199254740991`) prints as its decimal numeral. -/
theorem numberToString_of_safe (v : Int) (h : v.natAbs ≤ 9007199254740991) :
    numberToString v = toString v := by
  rcases v with a | a
  · rcases a with _ | a
    · rfl
    · have : a + 1 < 2 ^ 53 := by
        simp only [Int.ofNat_eq_coe, Int.natAbs_ofNat] at h
        omega
      show positiveToString (a + 1) = toString (a + 1)
      exact positiveToString_of_lt _ this
  · have : a + 1 < 2 ^ 53 := by
      simp only [Int.natAbs_negSucc] at h
      omega
    show "-" ++ positiveToString (a + 1) = "-" ++ toString (a + 1)
    rw [positiveToString_of_lt _ this]

/-! ## The list container -/

/-- The `forEach` loop of lines 53-56 appends one row per task, in order. -/
theorem forEach_appendChild (todos : List Task) (s : State) :
    todos.foldl
        (fun s todo => { s with todosList := s.todosList ++ [createTodoElement todo] }) s
      = { s with todosList := s.todosList ++ todos.map createTodoElement } := by
  induction todos generalizing s with
  | nil => simp
  | cons a l ih => simp [List.foldl, ih]

/-- Effect of `displayTodos` on a collection: the container is rebuilt from the
collection alone and nothing is thrown. -/
theorem displayTodos_some (todos : List Task) (s : State) :
    displayTodos (some todos) s
      = ({ s with
            todosList := if todos = [] then [emptyState] else todos.map createTodoElement },
         none) := by
  cases todos with
  | nil => rfl
  | cons a l =>
    simp only [displayTodos, forEach_appendChild]
    simp

/-- Effect of `displayTodos` without a collection: the container is emptied, then
`todos.length` throws. -/
theorem displayTodos_none (s : State) :
    displayTodos none s = ({ s with todosList := [] }, some JsError.typeError) := rfl

/-! ## The requests each operation issues -/

/-- The continuation of `loadTodos` issues no request. -/
theorem loadTodos_resume_requests (o : Outcome) (s : State) :
    (loadTodos_resume o s).requests = s.requests := by
  rcases o with _ | _ | _ | ⟨success, data, error⟩
  · rfl
  · rfl
  · rfl
  · cases success
    · rfl
    · cases data with
      | none => rfl
      | some todos => simp [loadTodos_resume, displayTodos_some]

/-- C1. When the trimmed title is non-empty, `addTodo` issues exactly one
request, `POST /api/todos`, whose body carries the trimmed title and the
trimmed description, or `null` when the trimmed description is empty. When
the response arrives, on whatever page `s'` it finds, a success envelope makes
it issue exactly one request, `GET /api/todos`, and any other outcome makes it
issue none; the pending continuation of that list request issues none
either. -/
theorem addTodo_requests (s : State) (h : jsTrim s.todoTitle ≠ "") :
    (addTodo s).requests
        = s.requests ++
          [{ method := "POST"
             url := "/api/todos"
             headers := [("Content-Type", "application/json")]
             body := some (Body.create (jsTrim s.todoTitle)
               (if jsTrim s.todoDescription = "" then none
                else some (jsTrim s.todoDescription))) }]
    ∧ (∀ (o : Outcome) (s' : State),
        (addTodo_resume o s').requests
          = s'.requests ++
            (if o.isSuccess = true then
              [{ method := "GET", url := "/api/todos", headers := [], body := none }]
             else []))
    ∧ (∀ (o : Outcome) (s' : State), (loadTodos_resume o s').requests = s'.requests) := by
  refine ⟨?_, ?_, loadTodos_resume_requests⟩
  · simp [addTodo, h, createRequest, strOrNull]
  · intro o s'
    rcases o with _ | _ | _ | ⟨success, data, error⟩
    · simp [addTodo_resume, addTodo_catch, showError, Outcome.isSuccess]
    · simp [addTodo_resume, addTodo_catch, showError, Outcome.isSuccess]
    · simp [addTodo_resume, addTodo_catch, showError, Outcome.isSuccess]
    · cases success <;>
        simp [addTodo_resume, showError, loadTodos, listRequest, Outcome.isSuccess]

/-- C1, on `samplePage` (title `"  Buy milk "`, description `" "`). -/
theorem addTodo_requests_witness :
    jsTrim samplePage.todoTitle ≠ ""
    ∧ (addTodo samplePage).requests
        = samplePage.requests ++
          [{ method := "POST"
             url := "/api/todos"
             headers := [("Content-Type", "application/json")]
             body := some (Body.create "Buy milk" none) }] :=
  ⟨by decide, (addTodo_requests samplePage (by decide)).1⟩

/-- C2. When the title is empty or made of white space only, `addTodo` issues
no request, leaves the error slot visible with the validation message, and
leaves the two input fields, the loading indicator and the list container as
they were. -/
theorem addTodo_blank_title (s : State)
    (h : ∀ c ∈ s.todoTitle.data, isJsWhiteSpace c = true) :
    (addTodo s).requests = s.requests
    ∧ (addTodo s).errorDisplay = "block"
    ∧ (addTodo s).errorText = "Veuillez entrer un titre pour la tâche"
    ∧ (addTodo s).todoTitle = s.todoTitle
    ∧ (addTodo s).todoDescription = s.todoDescription
    ∧ (addTodo s).loadingDisplay = s.loadingDisplay
    ∧ (addTodo s).todosList = s.todosList := by
  have ht : jsTrim s.todoTitle = "" := jsTrim_eq_empty_of_blank _ h
  simp [addTodo, ht, showError]

/-- C2, on `samplePage` with the title replaced by a blank and a tab. -/
theorem addTodo_blank_title_witness :
    (∀ c ∈ ({ samplePage with todoTitle := " \t" } : State).todoTitle.data,
        isJsWhiteSpace c = true)
    ∧ (addTodo { samplePage with todoTitle := " \t" }).requests = [listRequest]
    ∧ (addTodo { samplePage with todoTitle := " \t" }).errorDisplay = "block" :=
  ⟨by decide,
   (addTodo_blank_title { samplePage with todoTitle := " \t" } (by decide)).1,
   (addTodo_blank_title { samplePage with todoTitle := " \t" } (by decide)).2.1⟩

/-- C5, as amended. For every task id, `toggleTodo(todoId, completed)` issues
exactly one request, a `PUT` with body `{completed: completed}` on
`/api/todos/` followed by the id as the template literal prints it, which for
an id that is a safe integer is `/api/todos/{todoId}` with the id in decimal.
When the response arrives, on whatever page `s'` it finds, a failure envelope
or a transport failure makes it issue exactly one request, `GET /api/todos`,
and a success envelope makes it issue none. -/
theorem toggleTodo_requests (todoId : Int) (completed : Bool) (s : State) :
    (toggleTodo todoId completed s).requests
        = s.requests ++
          [{ method := "PUT"
             url := "/api/todos/" ++ numberToString todoId
             headers := [("Content-Type", "application/json")]
             body := some (Body.update completed) }]
    ∧ (todoId.natAbs ≤ 9007199254740991 →
        (toggleTodo todoId completed s).requests
          = s.requests ++
            [{ method := "PUT"
               url := "/api/todos/" ++ toString todoId
               headers := [("Content-Type", "application/json")]
               body := some (Body.update completed) }])
    ∧ (∀ (o : Outcome) (s' : State),
        (toggleTodo_resume o s').requests
          = s'.requests ++
            (if o.isSuccess = true then []
             else [{ method := "GET", url := "/api/todos", headers := [], body := none }])) := by
  refine ⟨rfl, ?_, ?_⟩
  · intro h
    rw [← numberToString_of_safe todoId h]
    rfl
  intro o s'
  rcases o with _ | _ | _ | ⟨success, data, error⟩
  · simp [toggleTodo_resume, toggleTodo_catch, showError, loadTodos, listRequest,
      Outcome.isSuccess]
  · simp [toggleTodo_resume, toggleTodo_catch, showError, loadTodos, listRequest,
      Outcome.isSuccess]
  · simp [toggleTodo_resume, toggleTodo_catch, showError, loadTodos, listRequest,
      Outcome.isSuccess]
  · cases success <;>
      simp [toggleTodo_resume, showError, loadTodos, listRequest, Outcome.isSuccess]

/-- C5 as amended, at `toggleTodo(7, true)` on `samplePage`: the request is
`PUT /api/todos/7`. -/
theorem toggleTodo_requests_witness :
    (7 : Int).natAbs ≤ 9007199254740991
    ∧ (toggleTodo 7 true samplePage).requests
        = samplePage.requests ++
          [{ method := "PUT"
             url := "/api/todos/7"
             headers := [("Content-Type", "application/json")]
             body := some (Body.update true) }] :=
  ⟨by decide, (toggleTodo_requests 7 true samplePage).2.1 (by decide)⟩

/-- C5 as stated fails at the task id `10^21`: the update request goes to
`/api/todos/1e+21`, not to `/api/todos/1000000000000000000000`. -/
theorem toggleTodo_large_id_url :
    (toggleTodo 1000000000000000000000 false samplePage).requests
        = samplePage.requests ++
          [{ method := "PUT"
             url := "/api/todos/1e+21"
             headers := [("Content-Type", "application/json")]
             body := some (Body.update false) }]
    ∧ (toggleTodo 1000000000000000000000 false samplePage).requests
        ≠ samplePage.requests ++
          [{ method := "PUT"
             url := "/api/todos/1000000000000000000000"
             headers := [("Content-Type", "application/json")]
             body := some (Body.update false) }] := by
  decide

/-- C6, as amended. For every task id: when the user declines,
`deleteTodo(todoId)` leaves the page and the request log exactly as they were.
When the user confirms, it issues exactly one request, a `DELETE` on
`/api/todos/` followed by the id as the template literal prints it, which for
an id that is a safe integer is `/api/todos/{todoId}` with the id in decimal.
When the response arrives, on whatever page `s'` it finds, a success envelope
makes it issue exactly one request, `GET /api/todos`; a failure envelope or a
transport failure makes it issue none, leaves the list container as it was and
leaves the error slot visible with the delete-failure or the connection-error
message. -/
theorem deleteTodo_requests (todoId : Int) (s : State) :
    deleteTodo todoId false s = s
    ∧ (deleteTodo todoId true s).requests
        = s.requests ++
          [{ method := "DELETE"
             url := "/api/todos/" ++ numberToString todoId
             headers := []
             body := none }]
    ∧ (todoId.natAbs ≤ 9007199254740991 →
        (deleteTodo todoId true s).requests
          = s.requests ++
            [{ method := "DELETE"
               url := "/api/todos/" ++ toString todoId
               headers := []
               body := none }])
    ∧ (∀ (o : Outcome) (s' : State),
        if o.isSuccess = true then
          (deleteTodo_resume o s').requests
            = s'.requests ++
              [{ method := "GET", url := "/api/todos", headers := [], body := none }]
        else
          (deleteTodo_resume o s').requests = s'.requests
          ∧ (deleteTodo_resume o s').todosList = s'.todosList
          ∧ (deleteTodo_resume o s').errorDisplay = "block"
          ∧ (deleteTodo_resume o s').errorText
              = (match o with
                 | .envelope _ => "Erreur lors de la suppression de la tâche"
                 | _ => "Erreur de connexion au serveur")) := by
  refine ⟨rfl, rfl, ?_, ?_⟩
  · intro h
    rw [← numberToString_of_safe todoId h]
    rfl
  intro o s'
  rcases o with _ | _ | _ | ⟨success, data, error⟩
  · simp [deleteTodo_resume, deleteTodo_catch, showError, Outcome.isSuccess]
  · simp [deleteTodo_resume, deleteTodo_catch, showError, Outcome.isSuccess]
  · simp [deleteTodo_resume, deleteTodo_catch, showError, Outcome.isSuccess]
  · cases success <;>
      simp [deleteTodo_resume, showError, loadTodos, listRequest, Outcome.isSuccess]

/-- C6 as amended, at `deleteTodo(7)` confirmed on `samplePage`: the request
is `DELETE /api/todos/7`. -/
theorem deleteTodo_requests_witness :
    (7 : Int).natAbs ≤ 9007199254740991
    ∧ (deleteTodo 7 true samplePage).requests
        = samplePage.requests ++
          [{ method := "DELETE", url := "/api/todos/7", headers := [], body := none }] :=
  ⟨by decide, (deleteTodo_requests 7 samplePage).2.2.1 (by decide)⟩

/-- C6 as stated fails at the task id `10^21`: the delete request goes to
`/api/todos/1e+21`, not to `/api/todos/1000000000000000000000`. -/
theorem deleteTodo_large_id_url :
    (deleteTodo 1000000000000000000000 true samplePage).requests
        = samplePage.requests ++
          [{ method := "DELETE", url := "/api/todos/1e+21", headers := [], body := none }]
    ∧ (deleteTodo 1000000000000000000000 true samplePage).requests
        ≠ samplePage.requests ++
          [{ method := "DELETE"
             url := "/api/todos/1000000000000000000000"
             headers := []
             body := none }] := by
  decide

/-! ## Rows -/

theorem isRow_createTodoElement (todo : Task) : isRow (createTodoElement todo) = true := by
  obtain ⟨id, title, description, completed⟩ := todo
  cases completed <;> rfl

theorem isEmptyState_createTodoElement (todo : Task) :
    isEmptyState (createTodoElement todo) = false := by
  obtain ⟨id, title, description, completed⟩ := todo
  cases completed <;> rfl

theorem isEmptyState_emptyState : isEmptyState emptyState = true := by rfl

theorem isRow_emptyState : isRow emptyState = false := by rfl

theorem countP_isRow_rows (todos : List Task) :
    (todos.map createTodoElement).countP isRow = todos.length := by
  induction todos with
  | nil => rfl
  | cons a l ih => simp [List.countP_cons, isRow_createTodoElement, ih]

theorem countP_isEmptyState_rows (todos : List Task) :
    (todos.map createTodoElement).countP isEmptyState = 0 := by
  induction todos with
  | nil => rfl
  | cons a l ih => simp [List.countP_cons, isEmptyState_createTodoElement, ih]

/-- The continuation of `loadTodos` on a success envelope with a collection. -/
theorem loadTodos_resume_success (todos : List Task) (error : Option String) (s : State) :
    loadTodos_resume (.envelope { success := true, data := some todos, error := error }) s
      = { s with
          loadingDisplay := "none"
          todosList := if todos = [] then [emptyState] else todos.map createTodoElement } := by
  simp [loadTodos_resume, displayTodos_some]

/-- C3. After `loadTodos` has received a success envelope carrying the
collection `todos`, whatever the page `s` held before: when `todos` is empty
the list container holds exactly one empty-state element and no row; otherwise
it holds exactly `todos.length` elements, all of them rows and none an
empty-state element. The container is the same whatever `prior` content it
had. -/
theorem loadTodos_renders (s : State) (todos : List Task) (error : Option String) :
    (if todos = [] then
        (loadTodos_resume
            (.envelope { success := true, data := some todos, error := error }) s).todosList
          = [emptyState]
        ∧ (loadTodos_resume
            (.envelope { success := true, data := some todos, error := error })
            s).todosList.countP isEmptyState = 1
        ∧ (loadTodos_resume
            (.envelope { success := true, data := some todos, error := error })
            s).todosList.countP isRow = 0
      else
        (loadTodos_resume
            (.envelope { success := true, data := some todos, error := error })
            s).todosList.length = todos.length
        ∧ (loadTodos_resume
            (.envelope { success := true, data := some todos, error := error })
            s).todosList.countP isRow = todos.length
        ∧ (loadTodos_resume
            (.envelope { success := true, data := some todos, error := error })
            s).todosList.countP isEmptyState = 0)
    ∧ (∀ prior : List Element,
        (loadTodos_resume
            (.envelope { success := true, data := some todos, error := error })
            { s with todosList := prior }).todosList
          = (loadTodos_resume
            (.envelope { success := true, data := some todos, error := error })
            s).todosList) := by
  refine ⟨?_, ?_⟩
  · simp only [loadTodos_resume_success]
    by_cases h : todos = []
    · simp [h, isEmptyState_emptyState, isRow_emptyState]
    · simp only [h, if_false, List.length_map, countP_isRow_rows, countP_isEmptyState_rows,
        and_self]
  · intro prior
    simp only [loadTodos_resume_success]

/-! ## Failures of the list request -/

/-- On a failure envelope, a network error or an unparseable body, the
continuation of `loadTodos` leaves the list container as it was and leaves the
error slot visible, with the load-failure or the connection-error message. -/
theorem loadTodos_resume_failure (o : Outcome) (s : State) (h : o.isSuccess = false) :
    (loadTodos_resume o s).todosList = s.todosList
    ∧ (loadTodos_resume o s).errorDisplay = "block"
    ∧ (loadTodos_resume o s).errorText
        = (match o with
           | .envelope _ => "Erreur lors du chargement des tâches"
           | _ => "Erreur de connexion au serveur") := by
  rcases o with _ | _ | _ | ⟨success, data, error⟩
  · simp [loadTodos_resume, loadTodos_catch, showError]
  · simp [loadTodos_resume, loadTodos_catch, showError]
  · simp [loadTodos_resume, loadTodos_catch, showError]
  · have hs : success = false := h
    subst hs
    simp [loadTodos_resume, showError]

/-- On an envelope that marks success and carries no collection, the
continuation of `loadTodos` empties the list container before the error is
caught, whatever the container held. -/
theorem loadTodos_resume_success_without_data (error : Option String) (s : State) :
    (loadTodos_resume (.envelope { success := true, data := none, error := error }) s).todosList
        = []
    ∧ (loadTodos_resume
        (.envelope { success := true, data := none, error := error }) s).errorDisplay
        = "block"
    ∧ (loadTodos_resume
        (.envelope { success := true, data := none, error := error }) s).errorText
        = "Erreur de connexion au serveur" := by
  simp [loadTodos_resume, displayTodos_none, loadTodos_catch, showError]

/-- C4, at the response `{"success": true}` on `samplePage`, whose list holds
one row: the call itself leaves the row in place, and once the response is
there the container is empty, while the error slot shows the connection-error
message. -/
theorem loadTodos_success_without_data_empties_list :
    samplePage.todosList
        = [createTodoElement { id := 7, title := "old", description := none, completed := true }]
    ∧ (loadTodos samplePage).todosList = samplePage.todosList
    ∧ (loadTodos_resume (.envelope { success := true, data := none, error := none })
        (loadTodos samplePage)).todosList = []
    ∧ (loadTodos_resume (.envelope { success := true, data := none, error := none })
        (loadTodos samplePage)).errorDisplay = "block"
    ∧ (loadTodos_resume (.envelope { success := true, data := none, error := none })
        (loadTodos samplePage)).errorText = "Erreur de connexion au serveur" :=
  ⟨rfl, rfl, rfl, rfl, rfl⟩

/-! ## The error slot -/

/-- C7, as amended. When the trimmed title is non-empty and the create
response is a failure envelope, the error slot is visible and shows the
envelope's error string when there is one and it is not empty, and the generic
add-failure message when there is none or it is empty; the two input fields
keep the values they had before the call. -/
theorem addTodo_failure_message (s : State) (h : jsTrim s.todoTitle ≠ "")
    (data : Option (List Task)) (error : Option String) :
    (addTodo_resume (.envelope { success := false, data := data, error := error })
        (addTodo s)).errorDisplay = "block"
    ∧ (addTodo_resume (.envelope { success := false, data := data, error := error })
        (addTodo s)).errorText
        = (match error with
           | some e => if e = "" then "Erreur lors de l'ajout de la tâche" else e
           | none => "Erreur lors de l'ajout de la tâche")
    ∧ (addTodo_resume (.envelope { success := false, data := data, error := error })
        (addTodo s)).todoTitle = s.todoTitle
    ∧ (addTodo_resume (.envelope { success := false, data := data, error := error })
        (addTodo s)).todoDescription = s.todoDescription := by
  cases error <;> simp [addTodo_resume, addTodo, h, showError, optStrOr, strOr]

/-- C7 as amended, on `samplePage` with the response
`{"success": false, "error": "Title required"}`. -/
theorem addTodo_failure_message_witness :
    jsTrim samplePage.todoTitle ≠ ""
    ∧ (addTodo_resume
        (.envelope { success := false, data := none, error := some "Title required" })
        (addTodo samplePage)).errorText = "Title required"
    ∧ (addTodo_resume
        (.envelope { success := false, data := none, error := some "Title required" })
        (addTodo samplePage)).todoTitle = "  Buy milk " :=
  ⟨by decide,
   (addTodo_failure_message samplePage (by decide) none (some "Title required")).2.1,
   (addTodo_failure_message samplePage (by decide) none (some "Title required")).2.2.1⟩

/-- C7 as stated fails at the response `{"success": false, "error": ""}`: the
envelope provides the error string `""`, and the slot shows the generic
message instead. -/
theorem addTodo_empty_error_string_shows_fallback :
    jsTrim samplePage.todoTitle ≠ ""
    ∧ (addTodo_resume (.envelope { success := false, data := none, error := some "" })
        (addTodo samplePage)).errorText = "Erreur lors de l'ajout de la tâche"
    ∧ (addTodo_resume (.envelope { success := false, data := none, error := some "" })
        (addTodo samplePage)).errorText ≠ "" :=
  ⟨by decide, by rfl, by decide⟩

/-- C8, as amended. On a failure envelope carrying a non-empty error string
`e`, `addTodo` places exactly `e` in the error slot, while `loadTodos`,
`toggleTodo` and `deleteTodo` each place their own fixed message there,
whatever `e` is. -/
theorem failure_envelope_error_text (e : String) (h : e ≠ "")
    (data : Option (List Task)) (s : State) :
    (addTodo_resume (.envelope { success := false, data := data, error := some e })
        s).errorText = e
    ∧ (loadTodos_resume (.envelope { success := false, data := data, error := some e })
        s).errorText = "Erreur lors du chargement des tâches"
    ∧ (toggleTodo_resume (.envelope { success := false, data := data, error := some e })
        s).errorText = "Erreur lors de la mise à jour de la tâche"
    ∧ (deleteTodo_resume (.envelope { success := false, data := data, error := some e })
        s).errorText = "Erreur lors de la suppression de la tâche" := by
  simp [addTodo_resume, loadTodos_resume, toggleTodo_resume, deleteTodo_resume, showError,
    loadTodos, optStrOr, strOr, h]

/-- C8 as amended, with the error string `"Title required"` on `samplePage`. -/
theorem failure_envelope_error_text_witness :
    "Title required" ≠ ""
    ∧ (addTodo_resume
        (.envelope { success := false, data := none, error := some "Title required" })
        samplePage).errorText = "Title required" :=
  ⟨by decide, (failure_envelope_error_text "Title required" (by decide) none samplePage).1⟩

/-- C8 as stated fails for `loadTodos` at the response
`{"success": false, "error": "Database unavailable"}`: the slot shows the
fixed load-failure message, not the envelope's string. -/
theorem loadTodos_ignores_error_string :
    (loadTodos_resume
        (.envelope { success := false, data := none, error := some "Database unavailable" })
        (loadTodos samplePage)).errorText = "Erreur lors du chargement des tâches"
    ∧ (loadTodos_resume
        (.envelope { success := false, data := none, error := some "Database unavailable" })
        (loadTodos samplePage)).errorText ≠ "Database unavailable" :=
  ⟨by rfl, by decide⟩

/-- When the update request fails, the continuation of `toggleTodo` ends with
the error slot hidden: `showError` makes it visible and the `loadTodos()` call
that follows hides it again. The text of the slot is the failure message. -/
theorem toggleTodo_resume_failure (o : Outcome) (s : State) (h : o.isSuccess = false) :
    (toggleTodo_resume o s).errorDisplay = "none"
    ∧ (toggleTodo_resume o s).errorText
        = (match o with
           | .envelope _ => "Erreur lors de la mise à jour de la tâche"
           | _ => "Erreur de connexion au serveur") := by
  rcases o with _ | _ | _ | ⟨success, data, error⟩
  · simp [toggleTodo_resume, toggleTodo_catch, showError, loadTodos]
  · simp [toggleTodo_resume, toggleTodo_catch, showError, loadTodos]
  · simp [toggleTodo_resume, toggleTodo_catch, showError, loadTodos]
  · have hs : success = false := h
    subst hs
    simp [toggleTodo_resume, showError, loadTodos]

/-- C9, at `toggleTodo(7, true)` on `samplePage` with a network error: once
`toggleTodo` has finished, the corrective list request is the last one issued,
the error slot holds the connection-error message, and the slot is hidden. -/
theorem toggleTodo_network_error_hides_error :
    (toggleTodo_resume .networkError (toggleTodo 7 true samplePage)).requests
        = [listRequest, updateRequest 7 true, listRequest]
    ∧ (toggleTodo_resume .networkError (toggleTodo 7 true samplePage)).errorText
        = "Erreur de connexion au serveur"
    ∧ (toggleTodo_resume .networkError (toggleTodo 7 true samplePage)).errorDisplay = "none"
    ∧ (toggleTodo_resume .networkError (toggleTodo 7 true samplePage)).errorDisplay
        ≠ "block" :=
  ⟨by rfl, by rfl, by rfl, by decide⟩

/-! ## The content of a row -/

/-- The elements of a row below the row element, in document order: the
checkbox, the content box with the title and, when the description is present
and not empty, the description, then the actions box with the delete
button. -/
theorem createTodoElement_descendants (todo : Task) :
    (createTodoElement todo).descendants.map (fun e => (e.props.tag, e.props.className))
      = [("input", "checkbox"), ("div", "todo-content"), ("div", "todo-title")]
        ++ (if optStrOr todo.description "" = "" then [] else [("div", "todo-description")])
        ++ [("div", "todo-actions"), ("button", "btn-small btn-delete")] := by
  by_cases h : optStrOr todo.description "" = "" <;>
    simp [createTodoElement, Element.appendChild, Element.descendants, descendantsOfList,
      Element.props, h]

/-- The element id of a row is `todo-` followed by the task id as the template
literal prints it. -/
theorem createTodoElement_id (todo : Task) :
    (createTodoElement todo).props.id = "todo-" ++ numberToString todo.id := by
  obtain ⟨id, title, description, completed⟩ := todo
  rfl

/-- C10, as amended. For a non-empty collection, `displayTodos` fills the list
container with the rows `createTodoElement` builds, in the order of the
collection. The row of a task has as element id `todo-` followed by the task
id as the template literal prints it, which for an id that is a safe integer
is `todo-{id}` with the id in decimal; it contains exactly one checkbox,
checked exactly when the task is completed; exactly one title element, whose
text is the task's title; a description element exactly when the task's
description is present and not empty, whose text is then the description; and
exactly one button, whose click listener deletes that task. -/
theorem displayTodos_rows (todos : List Task) (s : State) (h : todos ≠ []) :
    (displayTodos (some todos) s).1.todosList = todos.map createTodoElement
    ∧ ∀ todo : Task,
        (createTodoElement todo).props.id = "todo-" ++ numberToString todo.id
        ∧ (todo.id.natAbs ≤ 9007199254740991 →
            (createTodoElement todo).props.id = "todo-" ++ toString todo.id)
        ∧ ((createTodoElement todo).descendants.filter
              (fun e => e.props.inputType = "checkbox")).map (fun e => e.props.checked)
            = [todo.completed]
        ∧ ((createTodoElement todo).descendants.filter
              (fun e => e.hasClass "todo-title")).map (fun e => e.props.textContent)
            = [todo.title]
        ∧ ((createTodoElement todo).descendants.filter
              (fun e => e.hasClass "todo-description")).map (fun e => e.props.textContent)
            = (match todo.description with
               | some d => if d = "" then [] else [d]
               | none => [])
        ∧ ((createTodoElement todo).descendants.filter
              (fun e => e.props.tag = "button")).map (fun e => e.props.listeners)
            = [[("click", Handler.deleteTodo todo.id)]] := by
  refine ⟨by simp [displayTodos_some, h], ?_⟩
  intro todo
  refine ⟨createTodoElement_id todo, ?_, ?_⟩
  · intro hsafe
    rw [createTodoElement_id, numberToString_of_safe todo.id hsafe]
  obtain ⟨id, title, description, completed⟩ := todo
  rcases description with _ | d
  · exact ⟨rfl, rfl, rfl, rfl⟩
  · by_cases hd : d = ""
    · subst hd
      exact ⟨rfl, rfl, rfl, rfl⟩
    · simp only [createTodoElement, Element.props, optStrOr, strOr, hd, if_false, ne_eq,
        not_false_eq_true, if_true]
      exact ⟨rfl, rfl, rfl, rfl⟩

/-- C10 as amended, on a collection of two tasks: the rows come out in the
order of the collection, keyed `todo-3` and `todo-1`. -/
theorem displayTodos_rows_witness :
    ([{ id := 3, title := "Buy milk", description := some "2 litres", completed := false },
      { id := 1, title := "Call Bob", description := none, completed := true }] : List Task)
        ≠ []
    ∧ ((displayTodos
          (some [{ id := 3, title := "Buy milk", description := some "2 litres",
                   completed := false },
                 { id := 1, title := "Call Bob", description := none, completed := true }])
          samplePage).1.todosList.map (fun e => e.props.id))
        = ["todo-3", "todo-1"] :=
  ⟨by simp,
   by
    rw [(displayTodos_rows
      [{ id := 3, title := "Buy milk", description := some "2 litres", completed := false },
       { id := 1, title := "Call Bob", description := none, completed := true }]
      samplePage (by simp)).1]
    decide⟩

/-- C10 as stated fails at the task id `10^21`, whose row has the element id
`todo-1e+21`, and at the task id `2^53 + 1`, whose row has the element id
`todo-9007199254740992`, the one of the task with id `2^53`. -/
theorem createTodoElement_large_id_key :
    (createTodoElement
        { id := 1000000000000000000000, title := "a", description := none,
          completed := false }).props.id = "todo-1e+21"
    ∧ (createTodoElement
        { id := 1000000000000000000000, title := "a", description := none,
          completed := false }).props.id ≠ "todo-1000000000000000000000"
    ∧ (createTodoElement
        { id := 9007199254740993, title := "a", description := none,
          completed := false }).props.id = "todo-9007199254740992"
    ∧ (createTodoElement
        { id := 9007199254740993, title := "a", description := none,
          completed := false }).props.id
        = (createTodoElement
            { id := 9007199254740992, title := "b", description := none,
              completed := false }).props.id := by
  decide

end TodoApp
